import Mathlib

/-!
Shallow embedding of the `dont_panic` crate (src/src/lib.rs) and its slice
wrapper crate `dont_panic_slice` (src/slice/src/lib.rs).

Rust slices `&[T]` are modelled as `List α`.  An operation of the wrapper can
end in one of three ways, captured by `DPResult`:
  * `ok v`        - the operation returns `v` normally;
  * `dontPanic m` - the `dont_panic!` macro was invoked with formatted
                    message `m` (the unreachable-call primitive: a call to the
                    undefined extern symbol `rust_panic_called_where_shouldnt`,
                    or a real panic with message `m` under the `panic` feature);
  * `stdPanic m`  - a forwarded standard-library operation performed its own
                    ordinary bounds-checked panic with message `m` (this is a
                    normal runtime panic, NOT the unreachable-call primitive).
-/

namespace DontPanic

inductive DPResult (α : Type) where
  | ok : α → DPResult α
  | dontPanic : String → DPResult α
  | stdPanic : String → DPResult α
deriving DecidableEq

/-- The message produced by the format string
"index out of bounds: the len is \x7b\x7d but the index is \x7b\x7d"
used by `Index`/`IndexMut`/`swap` and by core slice indexing. -/
def indexOutOfBoundsMsg (len i : Nat) : String :=
  "index out of bounds: the len is " ++ toString len ++ " but the index is " ++ toString i

/-- The message produced by the format string
"index \x7b\x7d out of range for slice of length \x7b\x7d"
used by `split_at`/`split_at_mut`. -/
def splitAtOutOfRangeMsg (mid len : Nat) : String :=
  "index " ++ toString mid ++ " out of range for slice of length " ++ toString len

/-- `pub struct DPSlice<T>([T]);` - a transparent wrapper around a slice,
modelled as a one-field structure around the list of elements. -/
structure DPSlice (α : Type) where
  data : List α
deriving DecidableEq

namespace DPSlice

/-- `DPSlice::as_rust_slice`: `unsafe \x7b transmute(this) \x7d` - a pure
reinterpretation of the wrapper as the underlying slice. -/
def as_rust_slice (this : DPSlice α) : List α := this.data

/-- `DPSlice::as_rust_slice_mut`: `unsafe \x7b transmute(this) \x7d`. -/
def as_rust_slice_mut (this : DPSlice α) : List α := this.data

/-- `impl From<&[T]> for &DPSlice<T>`: `unsafe \x7b transmute(slice) \x7d`. -/
def from_rust_slice (slice : List α) : DPSlice α := ⟨slice⟩

/-- `impl From<&mut [T]> for &mut DPSlice<T>`: `unsafe \x7b transmute(slice) \x7d`. -/
def from_rust_slice_mut (slice : List α) : DPSlice α := ⟨slice⟩

/-- `DPSlice::len`: `Self::as_rust_slice(self).len()`. -/
def len (s : DPSlice α) : Nat := (as_rust_slice s).length

/-- `DPSlice::is_empty`: `Self::as_rust_slice(self).is_empty()`. -/
def is_empty (s : DPSlice α) : Bool := (as_rust_slice s).isEmpty

/-- `impl Index<usize> for DPSlice<T>`:
`Self::as_rust_slice(self).get(index).unwrap_or_else(|| dont_panic!("index out of bounds: ..."))`. -/
def index (s : DPSlice α) (i : Nat) : DPResult α :=
  match (as_rust_slice s)[i]? with
  | some x => DPResult.ok x
  | none => DPResult.dontPanic (indexOutOfBoundsMsg (len s) i)

/-- `impl IndexMut<usize> for DPSlice<T>`:
`Self::as_rust_slice_mut(self).get_mut(index).unwrap_or_else(|| dont_panic!("index out of bounds: ..."))`.
Writing `v` through the returned `&mut T` stores `v` at position `i` of the
underlying slice, so the model takes the value written and returns the
resulting underlying sequence. -/
def index_mut_write (s : DPSlice α) (i : Nat) (v : α) : DPResult (DPSlice α) :=
  match (as_rust_slice_mut s)[i]? with
  | some _ => DPResult.ok ⟨(as_rust_slice_mut s).set i v⟩
  | none => DPResult.dontPanic (indexOutOfBoundsMsg (len s) i)

end DPSlice

/-- Model of the core library method `<[T]>::swap(a, b)` of the crate era:
`let pa: *mut T = &mut self[a]; let pb: *mut T = &mut self[b]; ptr::swap(pa, pb);`.
Each indexing expression performs the ordinary runtime bounds check, panicking
with the usual index-out-of-bounds message (`a` is checked first); on success
the two elements are exchanged. -/
def rustSliceSwap (l : List α) (a b : Nat) : DPResult (List α) :=
  if ha : a < l.length then
    if hb : b < l.length then
      DPResult.ok ((l.set a (l.get ⟨b, hb⟩)).set b (l.get ⟨a, ha⟩))
    else DPResult.stdPanic (indexOutOfBoundsMsg l.length b)
  else DPResult.stdPanic (indexOutOfBoundsMsg l.length a)

namespace DPSlice

/-- `DPSlice::swap`:
`if a > self.len() \x7b dont_panic!("index out of bounds: ...", self.len(), a); \x7d`
`if b > self.len() \x7b dont_panic!("index out of bounds: ...", self.len(), b); \x7d`
`Self::as_rust_slice_mut(self).swap(a, b);`. -/
def swap (s : DPSlice α) (a b : Nat) : DPResult (DPSlice α) :=
  if a > len s then DPResult.dontPanic (indexOutOfBoundsMsg (len s) a)
  else if b > len s then DPResult.dontPanic (indexOutOfBoundsMsg (len s) b)
  else
    match rustSliceSwap (as_rust_slice_mut s) a b with
    | DPResult.ok l => DPResult.ok ⟨l⟩
    | DPResult.dontPanic m => DPResult.dontPanic m
    | DPResult.stdPanic m => DPResult.stdPanic m

/-- `DPSlice::split_at`:
`if mid > self.len() \x7b dont_panic!("index \x7b\x7d out of range for slice of length \x7b\x7d", mid, self.len()); \x7d`
`Self::as_rust_slice(self).split_at(mid)`; the core `split_at` yields the
partitions `[0, mid)` and `[mid, len)`. -/
def split_at (s : DPSlice α) (mid : Nat) : DPResult (List α × List α) :=
  if mid > len s then DPResult.dontPanic (splitAtOutOfRangeMsg mid (len s))
  else DPResult.ok ((as_rust_slice s).take mid, (as_rust_slice s).drop mid)

/-- `DPSlice::split_at_mut`: same check, then
`Self::as_rust_slice_mut(self).split_at_mut(mid)`. -/
def split_at_mut (s : DPSlice α) (mid : Nat) : DPResult (List α × List α) :=
  if mid > len s then DPResult.dontPanic (splitAtOutOfRangeMsg mid (len s))
  else DPResult.ok ((as_rust_slice_mut s).take mid, (as_rust_slice_mut s).drop mid)

end DPSlice

/-- `dp_assert!(cond)` (one-argument form): `if !cond \x7b dont_panic!(concat!("assertion failed: ", stringify!(cond))) \x7d`.
The condition is modelled by its boolean value `cond` together with its
stringified source form `condSource`. -/
def dp_assert (cond : Bool) (condSource : String) : DPResult Unit :=
  if !cond then DPResult.dontPanic ("assertion failed: " ++ condSource)
  else DPResult.ok ()

/-- `dp_assert!(cond, args...)` (two-plus-argument form): `if !cond \x7b dont_panic!(args...) \x7d`,
where `msg` is the caller-provided formatted message. -/
def dp_assert_msg (cond : Bool) (msg : String) : DPResult Unit :=
  if !cond then DPResult.dontPanic msg
  else DPResult.ok ()

/-- The result of running a Rust closure: it either returns a value or panics
(unwinds) with a message. -/
inductive ClosureResult (α : Type) where
  | ok : α → ClosureResult α
  | panicked : String → ClosureResult α
deriving DecidableEq

/-- The observable outcome of `dont_panic::call`. -/
inductive CallResult (α : Type) where
  | returned : α → CallResult α
  | unreachableCalled : CallResult α
  | panicked : String → CallResult α
deriving DecidableEq

/-- `dont_panic::call` (default build, `panic` feature off):
installs the drop guard `DontPanic`, runs `f`, and on normal return defuses
the guard with `core::mem::forget(guard)` and returns the result; if `f`
unwinds, the guard is dropped during unwinding and its `Drop` impl runs
`dont_panic!()`, i.e. the unreachable-call primitive is invoked. -/
def call (f : Unit → ClosureResult α) : CallResult α :=
  match f () with
  | ClosureResult.ok t => CallResult.returned t
  | ClosureResult.panicked _ => CallResult.unreachableCalled

/-- `dont_panic::call` with the `panic` feature on: `f()` - a pure
passthrough with no guard, the closure panicking or not on its own. -/
def call_feature_panic (f : Unit → ClosureResult α) : CallResult α :=
  match f () with
  | ClosureResult.ok t => CallResult.returned t
  | ClosureResult.panicked m => CallResult.panicked m

/-- The semantics of core `<[T]>::windows(size)` for `size > 0` (the iterator
collected to a list): window `i` is the `size`-element contiguous subview
starting at `i`, for `i` in `[0, length + 1 - size)` (no windows at all when
`size > length`). -/
def rustWindows (l : List α) (size : Nat) : List (List α) :=
  (List.range (l.length + 1 - size)).map (fun i => (l.drop i).take size)

/-- The semantics of core `<[T]>::chunks(size)` for `size > 0` (the iterator
collected to a list): chunk `i` is the subview starting at `i * size` of
length `size` (the last chunk possibly shorter). -/
def rustChunks (l : List α) (size : Nat) : List (List α) :=
  (List.range ((l.length + size - 1) / size)).map
    (fun i => (l.drop (i * size)).take size)

/-- A Rust reference as it occurs in a method return type: the referent value
together with whether the reference is an exclusive `&mut` (permitting
mutation of the referent) or a shared `&`. -/
structure Ref (α : Type) where
  val : α
  mutable : Bool
deriving DecidableEq

/-- The semantics of core `<[T]>::split_first`: `None` on the empty slice,
otherwise `Some((&first, &rest))` - shared references. -/
def rustSplitFirst (l : List α) : Option (Ref α × Ref (List α)) :=
  match l with
  | [] => none
  | x :: xs => some (⟨x, false⟩, ⟨xs, false⟩)

/-- The semantics of core `<[T]>::split_first_mut`: `None` on the empty slice,
otherwise `Some((&mut first, &mut rest))` - exclusive references through which
the caller can mutate the underlying slice. -/
def rustSplitFirstMut (l : List α) : Option (Ref α × Ref (List α)) :=
  match l with
  | [] => none
  | x :: xs => some (⟨x, true⟩, ⟨xs, true⟩)

/-- The last element and the rest, as plain values: `None` on the empty list,
otherwise `Some (last, init)`. -/
def splitLastVal : List α → Option (α × List α)
  | [] => none
  | [x] => some (x, [])
  | x :: y :: xs =>
    match splitLastVal (y :: xs) with
    | some (lst, init) => some (lst, x :: init)
    | none => none

/-- The semantics of core `<[T]>::split_last`: `None` on the empty slice,
otherwise `Some((&last, &init))` - shared references. -/
def rustSplitLast (l : List α) : Option (Ref α × Ref (List α)) :=
  (splitLastVal l).map (fun p => (⟨p.1, false⟩, ⟨p.2, false⟩))

/-- The semantics of core `<[T]>::split_last_mut`: `None` on the empty slice,
otherwise `Some((&mut last, &mut init))` - exclusive references. -/
def rustSplitLastMut (l : List α) : Option (Ref α × Ref (List α)) :=
  (splitLastVal l).map (fun p => (⟨p.1, true⟩, ⟨p.2, true⟩))

namespace DPSlice

/-- `DPSlice::windows`: `dp_assert!(size != 0); Self::as_rust_slice(self).windows(size)`. -/
def windows (s : DPSlice α) (size : Nat) : DPResult (List (List α)) :=
  match dp_assert (size != 0) "size != 0" with
  | DPResult.ok _ => DPResult.ok (rustWindows (as_rust_slice s) size)
  | DPResult.dontPanic m => DPResult.dontPanic m
  | DPResult.stdPanic m => DPResult.stdPanic m

/-- `DPSlice::chunks`: `dp_assert!(size != 0); Self::as_rust_slice(self).chunks(size)`. -/
def chunks (s : DPSlice α) (size : Nat) : DPResult (List (List α)) :=
  match dp_assert (size != 0) "size != 0" with
  | DPResult.ok _ => DPResult.ok (rustChunks (as_rust_slice s) size)
  | DPResult.dontPanic m => DPResult.dontPanic m
  | DPResult.stdPanic m => DPResult.stdPanic m

/-- `DPSlice::chunks_mut`: `dp_assert!(size != 0); Self::as_rust_slice_mut(self).chunks_mut(size)`. -/
def chunks_mut (s : DPSlice α) (size : Nat) : DPResult (List (List α)) :=
  match dp_assert (size != 0) "size != 0" with
  | DPResult.ok _ => DPResult.ok (rustChunks (as_rust_slice_mut s) size)
  | DPResult.dontPanic m => DPResult.dontPanic m
  | DPResult.stdPanic m => DPResult.stdPanic m

/-- `DPSlice::first`: `Self::as_rust_slice(self).first()`. -/
def first (s : DPSlice α) : Option (Ref α) :=
  (as_rust_slice s).head?.map (fun x => ⟨x, false⟩)

/-- `DPSlice::first_mut`: `Self::as_rust_slice_mut(self).first_mut()`. -/
def first_mut (s : DPSlice α) : Option (Ref α) :=
  (as_rust_slice_mut s).head?.map (fun x => ⟨x, true⟩)

/-- `DPSlice::split_first`: `Self::as_rust_slice(self).split_first()`. -/
def split_first (s : DPSlice α) : Option (Ref α × Ref (List α)) :=
  rustSplitFirst (as_rust_slice s)

/-- `DPSlice::split_first_mut`, exactly as the source has it: the receiver is
`&self` and the body is `Self::as_rust_slice(self).split_first()` - a forward
to the IMMUTABLE `split_first`, with return type `Option<(&T, &[T])>`. -/
def split_first_mut (s : DPSlice α) : Option (Ref α × Ref (List α)) :=
  rustSplitFirst (as_rust_slice s)

/-- `DPSlice::split_last`: `Self::as_rust_slice(self).split_last()`. -/
def split_last (s : DPSlice α) : Option (Ref α × Ref (List α)) :=
  rustSplitLast (as_rust_slice s)

/-- `DPSlice::split_last_mut`, exactly as the source has it: the receiver is
`&mut self` but the body is `Self::as_rust_slice_mut(self).split_last()` - a
forward to the IMMUTABLE `split_last`, with return type `Option<(&T, &[T])>`. -/
def split_last_mut (s : DPSlice α) : Option (Ref α × Ref (List α)) :=
  rustSplitLast (as_rust_slice_mut s)

end DPSlice

end DontPanic

namespace DontPanic

open DPSlice

/-- Claim C1: for `i < length` of the underlying sequence, `index(i)` returns
element `i` of the underlying sequence and `index_mut(i)` mutates exactly that
element, identically to direct mutation (`set i v`); for `i >= length` both
invoke the unreachable-call primitive with the message
"index out of bounds: the len is \x7blength\x7d but the index is \x7bi\x7d". -/
theorem index_spec (s : DPSlice α) (i : Nat) (v : α) :
    (∀ h : i < (as_rust_slice s).length,
        index s i = DPResult.ok ((as_rust_slice s).get ⟨i, h⟩) ∧
        index_mut_write s i v = DPResult.ok ⟨(as_rust_slice s).set i v⟩) ∧
    ((as_rust_slice s).length ≤ i →
        index s i = DPResult.dontPanic (indexOutOfBoundsMsg (len s) i) ∧
        index_mut_write s i v = DPResult.dontPanic (indexOutOfBoundsMsg (len s) i)) := by
  constructor
  · intro h
    have hget : (as_rust_slice s)[i]? = some ((as_rust_slice s).get ⟨i, h⟩) := by
      simp [List.getElem?_eq_getElem h, List.get_eq_getElem]
    constructor
    · simp [index, hget]
    · simp only [as_rust_slice] at hget
      simp [index_mut_write, as_rust_slice_mut, as_rust_slice, hget]
  · intro h
    have hget : (as_rust_slice s)[i]? = none := by
      simpa [List.getElem?_eq_none_iff] using h
    constructor
    · simp [index, hget]
    · simp only [as_rust_slice] at hget
      simp [index_mut_write, as_rust_slice_mut, hget]

/-- Witness for C1 on the spec scenario sequence `[10, 20, 30, 40]`: reading
index 2 yields 30, writing 99 at index 2 yields the directly-mutated sequence,
and index 4 hits the primitive with the exact message from the spec. -/
theorem index_spec_witness :
    index (from_rust_slice [10, 20, 30, 40]) 2 = DPResult.ok 30 ∧
    index_mut_write (from_rust_slice [10, 20, 30, 40]) 2 99 =
      DPResult.ok ⟨[10, 20, 99, 40]⟩ ∧
    index (from_rust_slice [10, 20, 30, 40]) 4 =
      DPResult.dontPanic "index out of bounds: the len is 4 but the index is 4" := by
  refine ⟨?_, ?_, ?_⟩
  · exact ((index_spec (from_rust_slice [10, 20, 30, 40]) 2 99).1 (by decide)).1
  · exact ((index_spec (from_rust_slice [10, 20, 30, 40]) 2 99).1 (by decide)).2
  · have := ((index_spec (from_rust_slice [10, 20, 30, 40]) 4 0).2 (by decide)).1
    simpa [indexOutOfBoundsMsg, len, as_rust_slice, from_rust_slice] using this

/-- The forwarded core `swap` either succeeds or performs an ordinary runtime
panic; it never invokes the unreachable-call primitive. -/
theorem rustSliceSwap_ne_dontPanic (l : List α) (a b : Nat) (m : String) :
    rustSliceSwap l a b ≠ DPResult.dontPanic m := by
  unfold rustSliceSwap
  split
  · split <;> simp
  · simp

/-- Claim C2: for all `a, b ≤ length` (in particular when at least one equals
the length exactly) `swap(a, b)` never invokes the unreachable-call primitive;
the primitive fires exactly when `a > length` (message for `a`) or, with
`a ≤ length`, when `b > length` (message for `b`). -/
theorem swap_violation_boundary (s : DPSlice α) (a b : Nat) :
    (a ≤ len s → b ≤ len s → ∀ m, swap s a b ≠ DPResult.dontPanic m) ∧
    (a > len s → swap s a b = DPResult.dontPanic (indexOutOfBoundsMsg (len s) a)) ∧
    (a ≤ len s → b > len s → swap s a b = DPResult.dontPanic (indexOutOfBoundsMsg (len s) b)) := by
  refine ⟨?_, ?_, ?_⟩
  · intro ha hb m
    simp only [swap, gt_iff_lt]
    rw [if_neg (Nat.not_lt.mpr ha), if_neg (Nat.not_lt.mpr hb)]
    cases h : rustSliceSwap (as_rust_slice_mut s) a b with
    | ok l => simp
    | dontPanic m2 => exact absurd h (rustSliceSwap_ne_dontPanic _ a b m2)
    | stdPanic m2 => simp
  · intro ha
    simp [swap, ha]
  · intro ha hb
    simp [swap, Nat.not_lt.mpr ha, hb]

/-- Witness for C2 on the spec scenario: on a length-4 sequence `swap(4, 0)`
does not invoke the primitive, while `swap(5, 0)` does, with the message for
index 5. -/
theorem swap_violation_boundary_witness :
    (∀ m, swap (from_rust_slice [10, 20, 30, 40]) 4 0 ≠ DPResult.dontPanic m) ∧
    swap (from_rust_slice [10, 20, 30, 40]) 5 0 =
      DPResult.dontPanic "index out of bounds: the len is 4 but the index is 5" := by
  constructor
  · exact (swap_violation_boundary (from_rust_slice [10, 20, 30, 40]) 4 0).1
      (by decide) (by decide)
  · have := (swap_violation_boundary (from_rust_slice [10, 20, 30, 40]) 5 0).2.1
      (by decide)
    simpa [indexOutOfBoundsMsg, len, as_rust_slice, from_rust_slice] using this

/-- Claim C10: when an argument of `swap` equals the length exactly, the
adapter check is passed (no unreachable-call), but the forwarded core `swap`
performs an ordinary bounds-checked runtime panic with the out-of-bounds
message; the failure escapes the link-time primitive entirely. -/
theorem swap_len_escapes_primitive (s : DPSlice α) (a b : Nat) :
    (a = len s → b ≤ len s →
        swap s a b = DPResult.stdPanic (indexOutOfBoundsMsg (len s) a)) ∧
    (a < len s → b = len s →
        swap s a b = DPResult.stdPanic (indexOutOfBoundsMsg (len s) b)) ∧
    (a ≤ len s → b ≤ len s → ∀ m, swap s a b ≠ DPResult.dontPanic m) := by
  refine ⟨?_, ?_, ?_⟩
  · intro ha hb
    subst ha
    simp only [swap, gt_iff_lt]
    rw [if_neg (Nat.lt_irrefl _), if_neg (Nat.not_lt.mpr hb)]
    rw [rustSliceSwap, dif_neg (by simp [as_rust_slice_mut, len, as_rust_slice])]
    rfl
  · intro ha hb
    subst hb
    simp only [swap, gt_iff_lt]
    rw [if_neg (Nat.not_lt.mpr (Nat.le_of_lt ha)), if_neg (Nat.lt_irrefl _)]
    rw [rustSliceSwap,
      dif_pos (show a < (as_rust_slice_mut s).length from ha),
      dif_neg (by simp [as_rust_slice_mut, len, as_rust_slice])]
    rfl
  · intro ha hb m
    simp only [swap, gt_iff_lt]
    rw [if_neg (Nat.not_lt.mpr ha), if_neg (Nat.not_lt.mpr hb)]
    cases h : rustSliceSwap (as_rust_slice_mut s) a b with
    | ok l => simp
    | dontPanic m2 => exact absurd h (rustSliceSwap_ne_dontPanic _ a b m2)
    | stdPanic m2 => simp

/-- Witness for C10: `swap(4, 0)` on the length-4 sequence `[10, 20, 30, 40]`
is an ordinary runtime panic, not an unreachable-call invocation. -/
theorem swap_len_escapes_primitive_witness :
    swap (from_rust_slice [10, 20, 30, 40]) 4 0 =
      DPResult.stdPanic "index out of bounds: the len is 4 but the index is 4" ∧
    (∀ m, swap (from_rust_slice [10, 20, 30, 40]) 4 0 ≠ DPResult.dontPanic m) := by
  constructor
  · have := (swap_len_escapes_primitive (from_rust_slice [10, 20, 30, 40]) 4 0).1
      (by decide) (by decide)
    simpa [indexOutOfBoundsMsg, len, as_rust_slice, from_rust_slice] using this
  · exact (swap_len_escapes_primitive (from_rust_slice [10, 20, 30, 40]) 4 0).2.2
      (by decide) (by decide)

/-- Claim C3: for `mid ≤ length`, `split_at(mid)` and `split_at_mut(mid)`
return partitions of sizes `mid` and `length - mid` whose concatenation is the
original sequence; for `mid > length` both invoke the unreachable-call
primitive with the message
"index \x7bmid\x7d out of range for slice of length \x7blength\x7d"; and
`split_at(length)` returns the whole sequence and an empty second part. -/
theorem split_at_spec (s : DPSlice α) (mid : Nat) :
    (mid ≤ len s →
        ∃ l r, split_at s mid = DPResult.ok (l, r) ∧
          split_at_mut s mid = DPResult.ok (l, r) ∧
          l.length = mid ∧ r.length = len s - mid ∧ l ++ r = as_rust_slice s) ∧
    (mid > len s →
        split_at s mid = DPResult.dontPanic (splitAtOutOfRangeMsg mid (len s)) ∧
        split_at_mut s mid = DPResult.dontPanic (splitAtOutOfRangeMsg mid (len s))) ∧
    split_at s (len s) = DPResult.ok (as_rust_slice s, []) := by
  refine ⟨?_, ?_, ?_⟩
  · intro h
    refine ⟨(as_rust_slice s).take mid, (as_rust_slice s).drop mid, ?_, ?_, ?_, ?_, ?_⟩
    · simp [split_at, Nat.not_lt.mpr h]
    · simp [split_at_mut, as_rust_slice_mut, as_rust_slice, Nat.not_lt.mpr h]
    · simpa [List.length_take, len] using h
    · simp [List.length_drop, len]
    · exact List.take_append_drop mid (as_rust_slice s)
  · intro h
    constructor
    · simp [split_at, h]
    · simp [split_at_mut, h]
  · simp [split_at, len, List.take_of_length_le, List.drop_of_length_le]

/-- Witness for C3 on the spec scenario `[10, 20, 30, 40]`: `split_at(4)`
returns the whole sequence and `[]`, `split_at(2)` returns the two halves, and
`split_at(5)` invokes the primitive with the exact message. -/
theorem split_at_spec_witness :
    split_at (from_rust_slice [10, 20, 30, 40]) 4 =
      DPResult.ok ([10, 20, 30, 40], []) ∧
    (∃ l r, split_at (from_rust_slice [10, 20, 30, 40]) 2 = DPResult.ok (l, r) ∧
      split_at_mut (from_rust_slice [10, 20, 30, 40]) 2 = DPResult.ok (l, r) ∧
      l.length = 2 ∧ r.length = 2 ∧ l ++ r = [10, 20, 30, 40]) ∧
    split_at (from_rust_slice [10, 20, 30, 40]) 5 =
      DPResult.dontPanic "index 5 out of range for slice of length 4" := by
  refine ⟨?_, ?_, ?_⟩
  · exact (split_at_spec (from_rust_slice [10, 20, 30, 40]) 4).2.2
  · exact (split_at_spec (from_rust_slice [10, 20, 30, 40]) 2).1 (by decide)
  · have := ((split_at_spec (from_rust_slice [10, 20, 30, 40]) 5).2.1 (by decide)).1
    simpa [splitAtOutOfRangeMsg, len, as_rust_slice, from_rust_slice] using this

/-- Claim C4 is refuted by the code: at the concrete slice `[10, 20]`,
`split_first_mut` and `split_last_mut` return SHARED references - they forward
to the immutable `split_first()`/`split_last()` (`split_first_mut` even takes
`&self`), with return type `Option<(&T, &[T])>` - and so differ from the
standard mutable splitting operations; the value decomposition (first/last
element and rest) is nonetheless as described. -/
theorem split_mut_forwards_immutable_eval :
    split_first_mut (from_rust_slice_mut [10, 20]) =
      some (⟨10, false⟩, ⟨[20], false⟩) ∧
    split_first_mut (from_rust_slice_mut [10, 20]) ≠
      rustSplitFirstMut (as_rust_slice (from_rust_slice_mut [10, 20])) ∧
    split_first_mut (from_rust_slice_mut [10, 20]) =
      split_first (from_rust_slice_mut [10, 20]) ∧
    split_last_mut (from_rust_slice_mut [10, 20]) =
      some (⟨20, false⟩, ⟨[10], false⟩) ∧
    split_last_mut (from_rust_slice_mut [10, 20]) ≠
      rustSplitLastMut (as_rust_slice_mut (from_rust_slice_mut [10, 20])) ∧
    split_last_mut (from_rust_slice_mut [10, 20]) =
      split_last (from_rust_slice_mut [10, 20]) := by
  decide

/-- Claim C5: `windows(0)`, `chunks(0)` and `chunks_mut(0)` invoke the
unreachable-call primitive unconditionally (via `dp_assert!(size != 0)`); for
`size > 0`, `windows(size)` forwards to the standard windowing iterator and
yields exactly `max 0 (length - size + 1)` windows, in particular no windows
at all (and no violation) when `size > length`. -/
theorem windows_chunks_spec (s : DPSlice α) (size : Nat) :
    (windows s 0 = DPResult.dontPanic "assertion failed: size != 0" ∧
     chunks s 0 = DPResult.dontPanic "assertion failed: size != 0" ∧
     chunks_mut s 0 = DPResult.dontPanic "assertion failed: size != 0") ∧
    (0 < size →
        windows s size = DPResult.ok (rustWindows (as_rust_slice s) size) ∧
        ((rustWindows (as_rust_slice s) size).length : ℤ) =
          max 0 ((len s : ℤ) - (size : ℤ) + 1) ∧
        (size > len s → rustWindows (as_rust_slice s) size = [])) := by
  constructor
  · refine ⟨?_, ?_, ?_⟩ <;> simp [windows, chunks, chunks_mut, dp_assert]
  · intro h
    have hb : (size != 0) = true := by
      simpa [bne_iff_ne] using Nat.pos_iff_ne_zero.mp h
    refine ⟨?_, ?_, ?_⟩
    · simp [windows, dp_assert, hb]
    · simp only [rustWindows, List.length_map, List.length_range, len]
      omega
    · intro hgt
      have hzero : (as_rust_slice s).length + 1 - size = 0 := by
        simp only [len] at hgt
        omega
      simp [rustWindows, hzero]

/-- Witness for C5: on `[10, 20, 30, 40]`, `windows(0)` invokes the primitive
with the assertion message, `windows(6)` yields no windows, and `windows(2)`
yields 3 = max 0 (4 - 2 + 1) windows. -/
theorem windows_chunks_spec_witness :
    windows (from_rust_slice [10, 20, 30, 40]) 0 =
      DPResult.dontPanic "assertion failed: size != 0" ∧
    windows (from_rust_slice [10, 20, 30, 40]) 6 = DPResult.ok [] ∧
    ((rustWindows (as_rust_slice (from_rust_slice [10, 20, 30, 40])) 2).length : ℤ) =
      max 0 ((4 : ℤ) - 2 + 1) := by
  refine ⟨?_, ?_, ?_⟩
  · exact (windows_chunks_spec (from_rust_slice [10, 20, 30, 40]) 0).1.1
  · have h := (windows_chunks_spec (from_rust_slice [10, 20, 30, 40]) 6).2 (by decide)
    rw [h.1, h.2.2 (by decide)]
  · exact ((windows_chunks_spec (from_rust_slice [10, 20, 30, 40]) 2).2 (by decide)).2.1

/-- Claim C6: converting a sequence to the adapter and back (in both the
immutable and the mutable direction) is the identity - the reinterpretation
preserves the object, hence its length and contents; and the adapter's length
always equals the underlying sequence's length. -/
theorem roundtrip_spec (l : List α) (s : DPSlice α) :
    as_rust_slice (from_rust_slice l) = l ∧
    as_rust_slice_mut (from_rust_slice_mut l) = l ∧
    from_rust_slice (as_rust_slice s) = s ∧
    from_rust_slice_mut (as_rust_slice_mut s) = s ∧
    len (from_rust_slice l) = l.length ∧
    len s = (as_rust_slice s).length :=
  ⟨rfl, rfl, rfl, rfl, rfl, rfl⟩

/-- Witness for C6 at the concrete sequence `[10, 20, 30, 40]`. -/
theorem roundtrip_spec_witness :
    as_rust_slice (from_rust_slice [10, 20, 30, 40]) = [10, 20, 30, 40] ∧
    from_rust_slice (as_rust_slice (DPSlice.mk [10, 20, 30, 40])) =
      DPSlice.mk [10, 20, 30, 40] ∧
    len (from_rust_slice [10, 20, 30, 40]) = 4 :=
  ⟨(roundtrip_spec [10, 20, 30, 40] (DPSlice.mk [10, 20, 30, 40])).1,
   (roundtrip_spec [10, 20, 30, 40] (DPSlice.mk [10, 20, 30, 40])).2.2.1,
   (roundtrip_spec [10, 20, 30, 40] (DPSlice.mk [10, 20, 30, 40])).2.2.2.2.1⟩

/-- Claim C7: `call(f)` runs the closure and returns exactly its result on
normal exit (the guard is defused by `mem::forget` and never fires); if the
closure unwinds, the guard fires and invokes the unreachable-call primitive;
with the `panic` feature on, `call` is a pure passthrough: results and panics
propagate unchanged. -/
theorem call_spec (f : Unit → ClosureResult α) :
    (∀ t, f () = ClosureResult.ok t →
        call f = CallResult.returned t ∧
        call_feature_panic f = CallResult.returned t) ∧
    (∀ m, f () = ClosureResult.panicked m →
        call f = CallResult.unreachableCalled ∧
        call_feature_panic f = CallResult.panicked m) := by
  constructor
  · intro t h
    constructor <;> simp [call, call_feature_panic, h]
  · intro m h
    constructor <;> simp [call, call_feature_panic, h]

/-- Witness for C7: a returning closure and a panicking closure, in both
build modes. -/
theorem call_spec_witness :
    call (fun _ => ClosureResult.ok 5) = CallResult.returned 5 ∧
    call (fun _ => ClosureResult.panicked (α := Nat) "inner panic") =
      CallResult.unreachableCalled ∧
    call_feature_panic (fun _ => ClosureResult.panicked (α := Nat) "inner panic") =
      CallResult.panicked "inner panic" := by
  refine ⟨?_, ?_, ?_⟩
  · exact ((call_spec (fun _ => ClosureResult.ok 5)).1 5 rfl).1
  · exact ((call_spec (fun _ => ClosureResult.panicked (α := Nat) "inner panic")).2
      "inner panic" rfl).1
  · exact ((call_spec (fun _ => ClosureResult.panicked (α := Nat) "inner panic")).2
      "inner panic" rfl).2

/-- Claim C8: `dp_assert!` has no effect when the condition is true; when it
is false it invokes the unreachable-call primitive, with the message
"assertion failed: " followed by the stringified condition in the one-argument
form, or with the caller-provided message in the two-plus-argument form. -/
theorem dp_assert_spec (cond : Bool) (src msg : String) :
    (cond = true →
        dp_assert cond src = DPResult.ok () ∧
        dp_assert_msg cond msg = DPResult.ok ()) ∧
    (cond = false →
        dp_assert cond src = DPResult.dontPanic ("assertion failed: " ++ src) ∧
        dp_assert_msg cond msg = DPResult.dontPanic msg) := by
  constructor <;> (intro h; subst h; simp [dp_assert, dp_assert_msg])

/-- Witness for C8 at concrete conditions and messages, matching the
`dp_assert!(size != 0)` use in the slice crate. -/
theorem dp_assert_spec_witness :
    dp_assert true "size != 0" = DPResult.ok () ∧
    dp_assert false "size != 0" =
      DPResult.dontPanic "assertion failed: size != 0" ∧
    dp_assert_msg false "custom message" = DPResult.dontPanic "custom message" := by
  refine ⟨?_, ?_, ?_⟩
  · exact ((dp_assert_spec true "size != 0" "custom message").1 rfl).1
  · exact ((dp_assert_spec false "size != 0" "custom message").2 rfl).1
  · exact ((dp_assert_spec false "size != 0" "custom message").2 rfl).2

/-- Claim C9: `len` and `is_empty` are pure total queries: `len` always equals
the length of the underlying sequence, and `is_empty` holds exactly when that
length is zero (equivalently, when the underlying sequence is empty); being
total functions into `Nat`/`Bool` (not `DPResult`), they can never invoke the
violation path, and they take the slice unchanged as input. -/
theorem len_is_empty_spec (s : DPSlice α) :
    len s = (as_rust_slice s).length ∧
    (is_empty s = true ↔ len s = 0) ∧
    (is_empty s = true ↔ as_rust_slice s = []) := by
  refine ⟨rfl, ?_, ?_⟩
  · simp [is_empty, len, List.isEmpty_iff_length_eq_zero]
  · simp [is_empty, List.isEmpty_iff]

/-- Witness for C9 at the concrete sequences `[10, 20, 30, 40]` and `[]`. -/
theorem len_is_empty_spec_witness :
    len (from_rust_slice [10, 20, 30, 40]) = 4 ∧
    is_empty (from_rust_slice [10, 20, 30, 40]) = false ∧
    is_empty (from_rust_slice ([] : List Nat)) = true := by
  refine ⟨?_, ?_, ?_⟩
  · exact (len_is_empty_spec (from_rust_slice [10, 20, 30, 40])).1
  · have h := (len_is_empty_spec (from_rust_slice [10, 20, 30, 40])).2.1
    revert h
    decide
  · exact (len_is_empty_spec (from_rust_slice ([] : List Nat))).2.2.mpr rfl

end DontPanic
